import Mathlib

/-!
Verification of the medTracker notification subsystem
(`src/server/notifications.py`, schema from `src/server/app.py`).

The Python code is embedded shallowly:

* the sqlite store becomes explicit lists (`Subscription`, `LogEntry`,
  `MedicationSetting` rows); a single `storeOk` flag in the environment
  models whether sqlite operations succeed or raise (every store access in
  the source is wrapped in a `try`/`except` of its own);
* `pywebpush` delivery becomes an oracle `deliver : Subscription →
  DeliveryOutcome` in the environment, together with a `webpushAvailable`
  flag modelling the `WEBPUSH_AVAILABLE` import guard;
* Python exceptions become `Except PyError`; a function whose Python body
  is wrapped in a catch-all `try`/`except` that returns a value is embedded
  as a total function (or as one that always returns `Except.ok`);
* `datetime` values are a `Time` structure (hour/minute) and calendar days
  an abstract `Nat` index (`DATE(timestamp)` comparisons only need day
  equality).
-/

namespace MedTracker

/-- Python exception classes relevant to the embedded code paths. -/
inductive PyError where
  | typeError : PyError
  | valueError : PyError
  | operationalError : PyError
deriving DecidableEq, Repr

/-- A local time of day, the value of `datetime.now().time()` or of
`datetime.strptime(s, "%H:%M").time()`. -/
structure Time where
  hour : Nat
  minute : Nat
deriving DecidableEq, Repr

/-- A row of the `notification_subscriptions` table
(`app.py` lines 60-66): `endpoint` is `UNIQUE NOT NULL`, and the two keys
are `NOT NULL`. -/
structure Subscription where
  endpoint : String
  p256dh_key : String
  auth_key : String
deriving DecidableEq, Repr

/-- A row of the `medication_logs` table (`app.py` lines 38-45), reduced to
the columns the notification code reads: `medication_id` and the calendar
day of `timestamp` (an abstract day index, standing for `DATE(timestamp)`). -/
structure LogEntry where
  medication_id : String
  day : Nat
deriving DecidableEq, Repr

/-- A row of the `medication_settings` table (`app.py` lines 47-58).
`name`, `dosage` and `schedule_time` are nullable columns, `current_stock`
may go negative under the race documented in the spec, so it is an `Int`. -/
structure MedicationSetting where
  medication_id : String
  name : Option String
  dosage : Option String
  schedule_time : Option String
  reminder_enabled : Bool
  low_stock_threshold : Int
  current_stock : Int
deriving DecidableEq, Repr

/-- The outcome `pywebpush.webpush(...)` produces for one subscription:
normal return, a `WebPushException` carrying an optional response status
code (`ex.response` may be `None`), or any other exception. -/
inductive DeliveryOutcome where
  | success : DeliveryOutcome
  | webPushErr (status : Option Nat) : DeliveryOutcome
  | otherErr : DeliveryOutcome
deriving DecidableEq, Repr

/-- The ambient execution environment of `NotificationManager`:
whether `pywebpush` imported (`WEBPUSH_AVAILABLE`), whether sqlite
operations succeed (`storeOk`; false means every store access raises),
the per-subscription webpush outcome, the current calendar day
(the sqlite current date) and the current local time (`datetime.now().time()`). -/
structure Env where
  webpushAvailable : Bool
  storeOk : Bool
  deliver : Subscription → DeliveryOutcome
  today : Nat
  now : Time

/-- The durable state the notification subsystem touches: the three sqlite
tables as lists of rows. -/
structure DB where
  subscriptions : List Subscription
  medication_logs : List LogEntry
  medication_settings : List MedicationSetting

/-- Log line of `send_notification` when `WEBPUSH_AVAILABLE` is false
(`notifications.py` line 113). -/
def capUnavailableMsg : String :=
  "Cannot send push notification - pywebpush not available"

/-- Log line of `send_notification` when the subscription list is empty
(`notifications.py` line 118). -/
def noSubscriptionsMsg : String :=
  "No subscriptions available for push notification"

/-- Log line of `send_notification` after the fan-out
(`notifications.py` line 170). -/
def sentSummaryMsg (successes total : Nat) : String :=
  "Sent notifications to " ++ toString successes ++ "/" ++ toString total
    ++ " subscribers"

/-- Embeds `NotificationManager.get_all_subscriptions`
(`notifications.py` lines 87-108): `SELECT endpoint, p256dh_key, auth_key
FROM notification_subscriptions`, rows mapped to dicts; any exception is
caught, logged and an empty list returned. -/
def get_all_subscriptions (env : Env) (subs : List Subscription) :
    List Subscription :=
  if env.storeOk then subs else []

/-- Embeds `NotificationManager.remove_subscriptions`
(`notifications.py` lines 173-188): early return on an empty list,
otherwise `DELETE FROM notification_subscriptions WHERE endpoint IN (...)`;
a storage exception is caught and logged, leaving the table unchanged. -/
def remove_subscriptions (env : Env) (subs : List Subscription)
    (endpoints : List String) : List Subscription :=
  if endpoints.isEmpty then subs
  else if env.storeOk then
    subs.filter (fun s => !(endpoints.contains s.endpoint))
  else subs

/-- Whether a `WebPushException` outcome is terminal: the exception carries
a response and its status code is in `[410, 413, 429]`
(`notifications.py` line 160). -/
def terminalFailure (o : DeliveryOutcome) : Bool :=
  match o with
  | DeliveryOutcome.webPushErr (some code) => [410, 413, 429].contains code
  | _ => false

/-- Embeds the `for subscription in subscriptions` fan-out loop of
`send_notification` (`notifications.py` lines 144-164): returns the pair
`(successful_sends, failed_subscriptions)`; a success increments the
counter, a terminal `WebPushException` appends the endpoint to the failed
list, every other exception is only logged. -/
def send_loop (d : Subscription → DeliveryOutcome) :
    List Subscription → Nat × List String
  | [] => (0, [])
  | s :: rest =>
    let acc := send_loop d rest
    match d s with
    | DeliveryOutcome.success => (acc.1 + 1, acc.2)
    | o => if terminalFailure o then (acc.1, s.endpoint :: acc.2) else acc

/-- The observable outcome of one `send_notification` call: its boolean
return value, the endpoints it attempted delivery to (in order), the
subscription table afterwards, and the log lines it emitted. -/
structure SendResult where
  result : Bool
  attempted : List String
  subs : List Subscription
  logLines : List String
deriving Repr

/-- Embeds `NotificationManager.send_notification`
(`notifications.py` lines 110-171): short-circuit to false when
`WEBPUSH_AVAILABLE` is false; load all subscriptions and return true when
there are none; otherwise fan out to every subscription, batch-remove the
endpoints with terminal failures, and report `successful_sends > 0`. -/
def send_notification (env : Env) (subs : List Subscription) : SendResult :=
  if env.webpushAvailable = false then
    { result := false, attempted := [], subs := subs,
      logLines := [capUnavailableMsg] }
  else
    let subscriptions := get_all_subscriptions env subs
    if subscriptions.isEmpty then
      { result := true, attempted := [], subs := subs,
        logLines := [noSubscriptionsMsg] }
    else
      let outcome := send_loop env.deliver subscriptions
      let subs1 :=
        if outcome.2.isEmpty then subs
        else remove_subscriptions env subs outcome.2
      { result := 0 < outcome.1,
        attempted := subscriptions.map (fun s => s.endpoint),
        subs := subs1,
        logLines := [sentSummaryMsg outcome.1 subscriptions.length] }

/-- Embeds `NotificationManager.add_subscription`
(`notifications.py` lines 66-85): `INSERT OR REPLACE INTO
notification_subscriptions (endpoint, p256dh_key, auth_key)` — sqlite
deletes any row conflicting on the `UNIQUE` endpoint and inserts the new
one — returning true; any exception is caught, logged, and false is
returned with the table unchanged. -/
def add_subscription (env : Env) (subs : List Subscription)
    (s : Subscription) : Bool × List Subscription :=
  if env.storeOk then
    (true, subs.filter (fun t => t.endpoint != s.endpoint) ++ [s])
  else
    (false, subs)

/-- Folds a sequence of `add_subscription` calls over a starting table,
keeping only the final table. -/
def upsert_seq (env : Env) (subs0 : List Subscription)
    (calls : List Subscription) : List Subscription :=
  calls.foldl (fun st c => (add_subscription env st c).2) subs0

/-- Embeds the sqlite query `SELECT COUNT(*) FROM medication_logs WHERE
medication_id = ? AND DATE(timestamp) = DATE(now)` (day equality against the current day)
(`notifications.py` lines 212-216). -/
def count_doses_today (logs : List LogEntry) (medId : String)
    (today : Nat) : Nat :=
  (logs.filter (fun l => l.medication_id == medId && l.day == today)).length

/-- Embeds `datetime.strptime(s, "%H:%M").time()`: two colon-separated
fields of one or two digits, hour at most 23, minute at most 59; anything
else raises `ValueError`. -/
def parseHM (s : String) : Except PyError Time :=
  match s.splitOn ":" with
  | [h, m] =>
    match h.toNat?, m.toNat? with
    | some hh, some mm =>
      if hh ≤ 23 && mm ≤ 59 && 0 < h.length && h.length ≤ 2
          && 0 < m.length && m.length ≤ 2 then
        Except.ok { hour := hh, minute := mm }
      else Except.error PyError.valueError
    | _, _ => Except.error PyError.valueError
  | _ => Except.error PyError.valueError

/-- Embeds the Python 3 comparison `current_time >= scheduled_time` at
`notifications.py` line 228, where `current_time` is a `datetime.time` and
`scheduled_time` is a `str`: neither operand supports ordering against the
other, so the interpreter raises `TypeError`. -/
def timeGeStr (_t : Time) (_s : String) : Except PyError Bool :=
  Except.error PyError.typeError

/-- The body of `NotificationManager.should_send_reminder` inside its
`try` (`notifications.py` lines 209-228): count the dose logs of today
(raising if the store is down); return false when a dose was logged today;
otherwise default a missing or empty `schedule_time` to `"09:00"`
(Python `or`), parse it with `strptime` (its result is bound but never
used), and evaluate `current_time >= scheduled_time` — the time-vs-string
comparison, which raises `TypeError`. -/
def should_send_reminder_body (env : Env) (logs : List LogEntry)
    (med : MedicationSetting) : Except PyError Bool :=
  if env.storeOk = false then Except.error PyError.operationalError
  else if 0 < count_doses_today logs med.medication_id env.today then
    Except.ok false
  else
    let scheduled_time :=
      match med.schedule_time with
      | none => "09:00"
      | some s => if s = "" then "09:00" else s
    match parseHM scheduled_time with
    | Except.error e => Except.error e
    | Except.ok _scheduled_datetime => timeGeStr env.now scheduled_time

/-- Embeds `NotificationManager.should_send_reminder`
(`notifications.py` lines 207-232): the body above wrapped in the
catch-all `except` that logs and returns false. -/
def should_send_reminder (env : Env) (logs : List LogEntry)
    (med : MedicationSetting) : Bool :=
  match should_send_reminder_body env logs med with
  | Except.ok b => b
  | Except.error _ => false

/-- Whether an embedded Python call returned normally rather than raising. -/
def isOkE {α : Type} : Except PyError α → Bool
  | Except.ok _ => true
  | Except.error _ => false

/-- The observable outcome of one `check_medication_adherence` cycle:
the ids of the medications a reminder was emitted for, and whether the
catch-all `except` fired (logging the error). -/
structure CycleResult where
  acted : List String
  errorLogged : Bool
deriving DecidableEq, Repr

/-- The observable outcome of one `check_stock_levels` cycle: the
medications a low-stock alert was emitted for, and whether the catch-all
`except` fired (logging the error). -/
structure StockCycleResult where
  alerted : List MedicationSetting
  errorLogged : Bool
deriving DecidableEq, Repr

/-- The body of `NotificationManager.check_medication_adherence` inside
its `try` (`notifications.py` lines 192-202): `SELECT * FROM
medication_settings WHERE reminder_enabled = 1` (raising if the store is
down), then for each row where `should_send_reminder` holds, send a
reminder; the ids reminded are the observable outcome. -/
def check_medication_adherence_body (env : Env) (db : DB) :
    Except PyError (List String) :=
  if env.storeOk = false then Except.error PyError.operationalError
  else
    let medications := db.medication_settings.filter
      (fun m => m.reminder_enabled)
    let due := medications.filter
      (fun m => should_send_reminder env db.medication_logs m)
    Except.ok (due.map (fun m => m.medication_id))

/-- Embeds `NotificationManager.check_medication_adherence`
(`notifications.py` lines 190-205): the body wrapped in the catch-all
`except` that logs the error and returns normally. The codomain is
`Except` so that "never raises to the caller" is expressible; the
function always produces `Except.ok`. -/
def check_medication_adherence (env : Env) (db : DB) :
    Except PyError CycleResult :=
  match check_medication_adherence_body env db with
  | Except.ok r => Except.ok { acted := r, errorLogged := false }
  | Except.error _ => Except.ok { acted := [], errorLogged := true }

/-- Embeds the sqlite query `SELECT * FROM medication_settings WHERE
current_stock <= low_stock_threshold AND current_stock > 0`
(`notifications.py` lines 314-318). -/
def low_stock_query (settings : List MedicationSetting) :
    List MedicationSetting :=
  settings.filter (fun m =>
    decide (m.current_stock ≤ m.low_stock_threshold)
      && decide (0 < m.current_stock))

/-- The body of `NotificationManager.check_stock_levels` inside its `try`
(`notifications.py` lines 312-321): run the low-stock query (raising if
the store is down) and send an alert for each selected medication. -/
def check_stock_levels_body (env : Env) (db : DB) :
    Except PyError (List MedicationSetting) :=
  if env.storeOk = false then Except.error PyError.operationalError
  else Except.ok (low_stock_query db.medication_settings)

/-- Embeds `NotificationManager.check_stock_levels`
(`notifications.py` lines 310-324): the body wrapped in the catch-all
`except` that logs the error and returns normally. -/
def check_stock_levels (env : Env) (db : DB) :
    Except PyError StockCycleResult :=
  match check_stock_levels_body env db with
  | Except.ok r => Except.ok { alerted := r, errorLogged := false }
  | Except.error _ => Except.ok { alerted := [], errorLogged := true }

/-- The default medication row inserted by `init_database`
(`app.py` lines 69-71), with the schema defaults for the remaining
columns (`reminder_enabled 1`, `low_stock_threshold 7`,
`current_stock 30`). -/
def daily_pill : MedicationSetting :=
  { medication_id := "daily_pill", name := some "Daily Medication",
    dosage := some "1 pill", schedule_time := some "09:00",
    reminder_enabled := true, low_stock_threshold := 7,
    current_stock := 30 }

/-- A healthy environment whose clock reads 09:01 on day 0, with every
delivery succeeding. -/
def env_0901 : Env :=
  { webpushAvailable := true, storeOk := true,
    deliver := fun _ => DeliveryOutcome.success, today := 0,
    now := { hour := 9, minute := 1 } }

/-- An environment whose sqlite store is unreachable: every store access
raises. -/
def envStoreDown : Env :=
  { webpushAvailable := true, storeOk := false,
    deliver := fun _ => DeliveryOutcome.success, today := 0,
    now := { hour := 9, minute := 1 } }

/-- A concrete subscription used by the witnesses. -/
def sub_a : Subscription :=
  { endpoint := "https://push.example/a", p256dh_key := "pk_a",
    auth_key := "ak_a" }

/-- A second concrete subscription, distinct endpoint. -/
def sub_b : Subscription :=
  { endpoint := "https://push.example/b", p256dh_key := "pk_b",
    auth_key := "ak_b" }

/-- The subscription `sub_a` re-subscribed with fresh keys (same
endpoint). -/
def sub_a2 : Subscription :=
  { endpoint := "https://push.example/a", p256dh_key := "pk_a2",
    auth_key := "ak_a2" }

/-- An environment where delivery to `sub_a` reports HTTP 410 (gone) and
every other delivery succeeds. -/
def envGoneA : Env :=
  { webpushAvailable := true, storeOk := true,
    deliver := fun s =>
      if s.endpoint == sub_a.endpoint then
        DeliveryOutcome.webPushErr (some 410)
      else DeliveryOutcome.success,
    today := 0, now := { hour := 9, minute := 1 } }

/-- An environment where delivery to `sub_a` reports a transient network
failure (a `WebPushException` with no response) and every other delivery
succeeds. -/
def envTransientA : Env :=
  { webpushAvailable := true, storeOk := true,
    deliver := fun s =>
      if s.endpoint == sub_a.endpoint then DeliveryOutcome.webPushErr none
      else DeliveryOutcome.success,
    today := 0, now := { hour := 9, minute := 1 } }

/-- A medication sitting exactly at its low-stock threshold. -/
def med_at_threshold : MedicationSetting :=
  { medication_id := "med_at", name := some "At Threshold",
    dosage := none, schedule_time := none, reminder_enabled := true,
    low_stock_threshold := 7, current_stock := 7 }

/-- A medication whose stock is depleted to zero. -/
def med_depleted : MedicationSetting :=
  { medication_id := "med_zero", name := some "Depleted",
    dosage := none, schedule_time := none, reminder_enabled := true,
    low_stock_threshold := 7, current_stock := 0 }

/-- A medication comfortably above its low-stock threshold. -/
def med_plenty : MedicationSetting :=
  { medication_id := "med_plenty", name := some "Plenty",
    dosage := none, schedule_time := none, reminder_enabled := true,
    low_stock_threshold := 7, current_stock := 8 }

/-- A concrete database holding the three stock test medications and no
logs or subscriptions. -/
def db_stock : DB :=
  { subscriptions := [], medication_logs := [],
    medication_settings := [med_at_threshold, med_depleted, med_plenty] }

/-- A dose log entry for `daily_pill` on day 0 (today in `env_0901`). -/
def log_today : LogEntry := { medication_id := "daily_pill", day := 0 }

/-- An environment in which `pywebpush` failed to import
(`WEBPUSH_AVAILABLE = False`). -/
def envNoPush : Env :=
  { webpushAvailable := false, storeOk := true,
    deliver := fun _ => DeliveryOutcome.success, today := 0,
    now := { hour := 9, minute := 1 } }

/-- C1: the claim states that for `daily_pill` scheduled at 09:00 with no
dose logged today, `should_send_reminder` evaluated at 09:01 returns
true. The code instead returns false: at `notifications.py` line 228 it
evaluates `current_time >= scheduled_time`, comparing the `datetime.time`
value against the raw string, which raises `TypeError`; the catch-all
`except` (line 230) swallows it and returns False — while the parsed
`scheduled_datetime` of line 224 is never used and the comment above line
228 states the intent the claim describes. This theorem evaluates the
embedded code at the exact scenario of the claim. -/
theorem C1_code_eval :
    should_send_reminder env_0901 [] daily_pill = false := by
  unfold should_send_reminder should_send_reminder_body
  cases h : parseHM "09:00" with
  | error e =>
    simp [env_0901, daily_pill, count_doses_today, h, timeGeStr]
  | ok t =>
    simp [env_0901, daily_pill, count_doses_today, h, timeGeStr]

/-- C2: whenever at least one dose log entry exists for the medication on
the current calendar day, `should_send_reminder` returns false, regardless
of the scheduled time (`notifications.py` lines 219-220). -/
theorem C2_dose_today_suppresses (env : Env) (logs : List LogEntry)
    (med : MedicationSetting)
    (h : 0 < count_doses_today logs med.medication_id env.today) :
    should_send_reminder env logs med = false := by
  unfold should_send_reminder should_send_reminder_body
  cases hs : env.storeOk with
  | false => simp
  | true => simp [h]

/-- Witness for C2 at a concrete input: one dose of `daily_pill` logged
today. -/
theorem C2_witness :
    0 < count_doses_today [log_today] daily_pill.medication_id
        env_0901.today ∧
    should_send_reminder env_0901 [log_today] daily_pill = false :=
  ⟨by decide,
   C2_dose_today_suppresses env_0901 [log_today] daily_pill (by decide)⟩

/-- C3: with the push capability available and zero subscriptions in the
store, `send_notification` returns true, attempts no delivery and mutates
nothing (`notifications.py` lines 116-119). -/
theorem C3_empty_store_success (env : Env)
    (h : env.webpushAvailable = true) :
    (send_notification env []).result = true ∧
    (send_notification env []).attempted = [] ∧
    (send_notification env []).subs = [] := by
  unfold send_notification get_all_subscriptions
  simp [h]

/-- Witness for C3 at a concrete environment. -/
theorem C3_witness :
    env_0901.webpushAvailable = true ∧
    ((send_notification env_0901 []).result = true ∧
     (send_notification env_0901 []).attempted = [] ∧
     (send_notification env_0901 []).subs = []) :=
  ⟨rfl, C3_empty_store_success env_0901 rfl⟩

/-- C4: with the push capability unavailable, `send_notification` returns
false before reading the subscription store, attempts no delivery, mutates
nothing, and emits a log line distinct from the zero-subscriptions one
(`notifications.py` lines 112-114). The embedded function is total, so no
exception escapes. -/
theorem C4_capability_unavailable (env : Env) (subs : List Subscription)
    (h : env.webpushAvailable = false) :
    (send_notification env subs).result = false ∧
    (send_notification env subs).attempted = [] ∧
    (send_notification env subs).subs = subs ∧
    (send_notification env subs).logLines = [capUnavailableMsg] ∧
    capUnavailableMsg ≠ noSubscriptionsMsg := by
  unfold send_notification
  refine ⟨by simp [h], by simp [h], by simp [h], by simp [h], by decide⟩

/-- Witness for C4 at a concrete environment with one stored
subscription. -/
theorem C4_witness :
    envNoPush.webpushAvailable = false ∧
    ((send_notification envNoPush [sub_a]).result = false ∧
     (send_notification envNoPush [sub_a]).attempted = [] ∧
     (send_notification envNoPush [sub_a]).subs = [sub_a] ∧
     (send_notification envNoPush [sub_a]).logLines = [capUnavailableMsg] ∧
     capUnavailableMsg ≠ noSubscriptionsMsg) :=
  ⟨rfl, C4_capability_unavailable envNoPush [sub_a] rfl⟩

/-- C8: with the store reachable, `check_stock_levels` alerts exactly the
medications with `0 < current_stock ≤ low_stock_threshold`
(`notifications.py` lines 314-318): stock equal to the threshold is
included, zero stock and stock above the threshold are excluded. -/
theorem C8_low_stock_selection (env : Env) (db : DB)
    (h : env.storeOk = true) :
    check_stock_levels env db =
      Except.ok { alerted := low_stock_query db.medication_settings,
                  errorLogged := false } ∧
    ∀ m, m ∈ low_stock_query db.medication_settings ↔
      m ∈ db.medication_settings ∧ 0 < m.current_stock ∧
        m.current_stock ≤ m.low_stock_threshold := by
  constructor
  · unfold check_stock_levels check_stock_levels_body
    simp [h]
  · intro m
    unfold low_stock_query
    simp [List.mem_filter]
    tauto

/-- Witness for C8: in `db_stock`, the medication sitting exactly at its
threshold is selected. -/
theorem C8_witness :
    env_0901.storeOk = true ∧
    (med_at_threshold ∈ low_stock_query db_stock.medication_settings ↔
      med_at_threshold ∈ db_stock.medication_settings ∧
        0 < med_at_threshold.current_stock ∧
        med_at_threshold.current_stock ≤
          med_at_threshold.low_stock_threshold) :=
  ⟨rfl, (C8_low_stock_selection env_0901 db_stock rfl).2 med_at_threshold⟩

/-- C9: both periodic callbacks catch every exception of their body at the
callback boundary: `check_medication_adherence` and `check_stock_levels`
always return normally, and when the body raised, the error was logged
(the catch-all `except` branches at `notifications.py` lines 204-205 and
323-324), so one failing cycle never terminates the scheduler loop. -/
theorem C9_callbacks_never_raise (env : Env) (db : DB) :
    isOkE (check_medication_adherence env db) = true ∧
    isOkE (check_stock_levels env db) = true ∧
    (isOkE (check_medication_adherence_body env db) = false →
      check_medication_adherence env db =
        Except.ok { acted := [], errorLogged := true }) ∧
    (isOkE (check_stock_levels_body env db) = false →
      check_stock_levels env db =
        Except.ok { alerted := [], errorLogged := true }) := by
  refine ⟨?_, ?_, ?_, ?_⟩
  · unfold check_medication_adherence
    cases hb : check_medication_adherence_body env db <;> simp [isOkE]
  · unfold check_stock_levels
    cases hb : check_stock_levels_body env db <;> simp [isOkE]
  · intro h
    unfold check_medication_adherence
    cases hb : check_medication_adherence_body env db with
    | error e => simp
    | ok r => simp [hb, isOkE] at h
  · intro h
    unfold check_stock_levels
    cases hb : check_stock_levels_body env db with
    | error e => simp
    | ok r => simp [hb, isOkE] at h

/-- Witness for C9: with the store unreachable the adherence body raises,
yet the callback returns normally with the error logged. -/
theorem C9_witness :
    isOkE (check_medication_adherence envStoreDown db_stock) = true ∧
    isOkE (check_medication_adherence_body envStoreDown db_stock) = false ∧
    check_medication_adherence envStoreDown db_stock =
      Except.ok { acted := [], errorLogged := true } :=
  ⟨(C9_callbacks_never_raise envStoreDown db_stock).1, by decide,
   (C9_callbacks_never_raise envStoreDown db_stock).2.2.1 (by decide)⟩

/-- C10: on any storage failure `get_all_subscriptions` returns an empty
list rather than raising (`notifications.py` lines 106-108),
indistinguishable at the interface from an empty store; consequently with
the push capability available `send_notification` reports success with
zero delivery attempts during a storage outage. -/
theorem C10_store_outage_reports_success (env : Env)
    (subs : List Subscription) (h : env.storeOk = false) :
    get_all_subscriptions env subs = [] ∧
    (env.webpushAvailable = true →
      (send_notification env subs).result = true ∧
      (send_notification env subs).attempted = []) := by
  constructor
  · simp [get_all_subscriptions, h]
  · intro hw
    unfold send_notification get_all_subscriptions
    simp [h, hw]

/-- Witness for C10: a concrete outage environment with one stored
subscription. -/
theorem C10_witness :
    envStoreDown.storeOk = false ∧
    get_all_subscriptions envStoreDown [sub_a] = [] ∧
    ((send_notification envStoreDown [sub_a]).result = true ∧
     (send_notification envStoreDown [sub_a]).attempted = []) :=
  ⟨rfl, (C10_store_outage_reports_success envStoreDown [sub_a] rfl).1,
   (C10_store_outage_reports_success envStoreDown [sub_a] rfl).2 rfl⟩

/-- Helper: a subscription whose delivery outcome is terminal has its
endpoint collected in the failed list of the fan-out loop. -/
theorem send_loop_failed_mem (d : Subscription → DeliveryOutcome)
    (db : List Subscription) (s : Subscription) (hs : s ∈ db)
    (ht : terminalFailure (d s) = true) :
    s.endpoint ∈ (send_loop d db).2 := by
  induction db with
  | nil => cases hs
  | cons t rest ih =>
    rcases List.mem_cons.mp hs with heq | hmem
    · subst heq
      cases hd : d s with
      | success => rw [hd] at ht; exact absurd ht (by simp [terminalFailure])
      | webPushErr st => rw [hd] at ht; simp [send_loop, hd, ht]
      | otherErr => rw [hd] at ht; exact absurd ht (by simp [terminalFailure])
    · have ihm := ih hmem
      cases hd : d t with
      | success => simpa [send_loop, hd] using ihm
      | webPushErr st =>
        cases hterm : terminalFailure (DeliveryOutcome.webPushErr st) with
        | true =>
          simp [send_loop, hd, hterm]
          exact Or.inr ihm
        | false => simpa [send_loop, hd, hterm] using ihm
      | otherErr => simpa [send_loop, hd, terminalFailure] using ihm

/-- Helper: every endpoint in the failed list of the fan-out loop comes
from a subscription in the input list whose delivery outcome was
terminal. -/
theorem send_loop_failed_src (d : Subscription → DeliveryOutcome)
    (db : List Subscription) (e : String)
    (he : e ∈ (send_loop d db).2) :
    ∃ s, s ∈ db ∧ s.endpoint = e ∧ terminalFailure (d s) = true := by
  induction db with
  | nil => simp [send_loop] at he
  | cons t rest ih =>
    cases hd : d t with
    | success =>
      simp [send_loop, hd] at he
      obtain ⟨s, hs, he1, ht⟩ := ih he
      exact ⟨s, List.mem_cons_of_mem t hs, he1, ht⟩
    | webPushErr st =>
      cases hterm : terminalFailure (DeliveryOutcome.webPushErr st) with
      | true =>
        simp [send_loop, hd, hterm] at he
        rcases he with heq | he2
        · exact ⟨t, List.mem_cons_self t rest, heq.symm,
            by rw [hd]; exact hterm⟩
        · obtain ⟨s, hs, he1, ht⟩ := ih he2
          exact ⟨s, List.mem_cons_of_mem t hs, he1, ht⟩
      | false =>
        simp [send_loop, hd, hterm] at he
        obtain ⟨s, hs, he1, ht⟩ := ih he
        exact ⟨s, List.mem_cons_of_mem t hs, he1, ht⟩
    | otherErr =>
      simp [send_loop, hd, terminalFailure] at he
      obtain ⟨s, hs, he1, ht⟩ := ih he
      exact ⟨s, List.mem_cons_of_mem t hs, he1, ht⟩

/-- Helper: with the capability available, the store reachable and at
least one subscription present, `send_notification` removes exactly the
endpoints the fan-out marked terminal, and attempts every subscription
once in order. -/
theorem send_notification_subs_eq (env : Env) (db : List Subscription)
    (hw : env.webpushAvailable = true) (hst : env.storeOk = true)
    (hne : db ≠ []) :
    (send_notification env db).subs =
      db.filter
        (fun t => !((send_loop env.deliver db).2.contains t.endpoint)) ∧
    (send_notification env db).attempted =
      db.map (fun t => t.endpoint) := by
  cases db with
  | nil => exact absurd rfl hne
  | cons t rest =>
    constructor
    · unfold send_notification get_all_subscriptions remove_subscriptions
      simp only [hw, hst, if_true, if_false, Bool.true_eq_false,
        ite_false, ite_true, List.isEmpty_cons]
      cases hfl : (send_loop env.deliver (t :: rest)).2 with
      | nil => simp [hfl, List.filter_eq_self]
      | cons a l => simp [hfl]
    · unfold send_notification get_all_subscriptions
      simp [hw, hst]

/-- C5: a subscription whose delivery fails with a terminal transport
status (410, 413 or 429) is removed from the store by the post-fan-out
batch removal, so its endpoint is absent from `get_all_subscriptions`
afterwards; and that batch removal is the only mutation
`send_notification` makes to the store (`notifications.py` lines 156-168
and 173-188). -/
theorem C5_terminal_failure_pruned (env : Env) (db : List Subscription)
    (s : Subscription) (code : Nat)
    (hw : env.webpushAvailable = true) (hst : env.storeOk = true)
    (hs : s ∈ db)
    (hd : env.deliver s = DeliveryOutcome.webPushErr (some code))
    (hcode : code = 410 ∨ code = 413 ∨ code = 429) :
    s.endpoint ∉
      (get_all_subscriptions env (send_notification env db).subs).map
        (fun t => t.endpoint) ∧
    (send_notification env db).subs =
      db.filter
        (fun t => !((send_loop env.deliver db).2.contains t.endpoint)) := by
  have hterm : terminalFailure (env.deliver s) = true := by
    rw [hd]; rcases hcode with rfl | rfl | rfl <;> decide
  have hmemf : s.endpoint ∈ (send_loop env.deliver db).2 :=
    send_loop_failed_mem env.deliver db s hs hterm
  have hne : db ≠ [] := by
    intro h0; rw [h0] at hs; cases hs
  have hsubs := (send_notification_subs_eq env db hw hst hne).1
  refine ⟨?_, hsubs⟩
  rw [hsubs]
  unfold get_all_subscriptions
  rw [hst]
  intro hmem
  simp only [if_true, List.mem_map, List.mem_filter] at hmem
  obtain ⟨u, ⟨hu_db, hu_keep⟩, hu_e⟩ := hmem
  rw [hu_e] at hu_keep
  have hcontains :
      (send_loop env.deliver db).2.contains s.endpoint = true := by
    simpa [List.contains] using hmemf
  rw [hcontains] at hu_keep
  cases hu_keep

/-- C6: a subscription whose delivery fails with a non-terminal failure
is kept: it is still present in the store and in
`get_all_subscriptions` after `send_notification` returns, it was
attempted exactly once (no retry within the call), and every subscription
in the store got its delivery attempt (`notifications.py`
lines 144-168). -/
theorem C6_transient_failure_kept (env : Env) (db : List Subscription)
    (s : Subscription)
    (hw : env.webpushAvailable = true) (hst : env.storeOk = true)
    (hs : s ∈ db)
    (hnodup : (db.map (fun t => t.endpoint)).Nodup)
    (_hfail : env.deliver s ≠ DeliveryOutcome.success)
    (htrans : terminalFailure (env.deliver s) = false) :
    s ∈ (send_notification env db).subs ∧
    s.endpoint ∈
      (get_all_subscriptions env (send_notification env db).subs).map
        (fun t => t.endpoint) ∧
    (send_notification env db).attempted =
      db.map (fun t => t.endpoint) ∧
    (send_notification env db).attempted.count s.endpoint = 1 := by
  have hne : db ≠ [] := by
    intro h0; rw [h0] at hs; cases hs
  obtain ⟨hsubs, hatt⟩ := send_notification_subs_eq env db hw hst hne
  have hnotfail : s.endpoint ∉ (send_loop env.deliver db).2 := by
    intro hin
    obtain ⟨u, hu_db, hu_e, hu_t⟩ :=
      send_loop_failed_src env.deliver db s.endpoint hin
    have heq : u = s :=
      List.inj_on_of_nodup_map hnodup hu_db hs hu_e
    rw [heq] at hu_t
    rw [hu_t] at htrans
    cases htrans
  have hkeep : s ∈ (send_notification env db).subs := by
    rw [hsubs]
    refine List.mem_filter.mpr ⟨hs, ?_⟩
    simp [List.contains, hnotfail]
  refine ⟨hkeep, ?_, hatt, ?_⟩
  · unfold get_all_subscriptions
    rw [hst]
    simp only [if_true, List.mem_map]
    exact ⟨s, hkeep, rfl⟩
  · rw [hatt]
    exact List.count_eq_one_of_mem hnodup
      (List.mem_map.mpr ⟨s, hs, rfl⟩)

/-- Helper: one upsert of a subscription whose endpoint is `e` leaves
exactly that one row with endpoint `e` in the table. -/
theorem add_subscription_filter_eq (env : Env) (hst : env.storeOk = true)
    (st : List Subscription) (c : Subscription) (e : String)
    (hc : c.endpoint = e) :
    ((add_subscription env st c).2).filter
      (fun t => t.endpoint == e) = [c] := by
  unfold add_subscription
  rw [hst]
  simp only [if_true, List.filter_append, List.filter_filter]
  have h1 : (st.filter
      (fun t => (t.endpoint == e) && (t.endpoint != c.endpoint))) = [] := by
    refine List.filter_eq_nil_iff.mpr ?_
    intro t _
    subst hc
    cases hbe : t.endpoint == c.endpoint with
    | false => simp [hbe]
    | true => simp [hbe]; exact eq_of_beq hbe
  rw [h1]
  simp [hc]

/-- Helper: folding a nonempty sequence of upserts that all target
endpoint `e` leaves exactly one row with endpoint `e`: the last call. -/
theorem upsert_seq_filter_last (env : Env) (hst : env.storeOk = true)
    (e : String) :
    ∀ (calls : List Subscription) (subs0 : List Subscription)
      (clast : Subscription), (∀ c ∈ calls, c.endpoint = e) →
      calls.getLast? = some clast →
      (upsert_seq env subs0 calls).filter
        (fun t => t.endpoint == e) = [clast]
  | [], _, _, _, hlast => by simp at hlast
  | [c], subs0, clast, hall, hlast => by
    have hc : clast = c := by simpa using hlast.symm
    subst hc
    exact add_subscription_filter_eq env hst subs0 clast e
      (hall clast (by simp))
  | c :: c2 :: rest, subs0, clast, hall, hlast => by
    rw [List.getLast?_cons_cons] at hlast
    have hstep : upsert_seq env subs0 (c :: c2 :: rest) =
        upsert_seq env ((add_subscription env subs0 c).2) (c2 :: rest) :=
      rfl
    rw [hstep]
    exact upsert_seq_filter_last env hst e (c2 :: rest) _ clast
      (fun x hx => hall x (List.mem_cons_of_mem c hx)) hlast

/-- C7: after any nonempty sequence of `add_subscription` calls with the
same endpoint, exactly one subscription row exists for that endpoint and
it carries the keys of the latest call; and with the store reachable an
upsert never fails, whatever the current table (the `INSERT OR REPLACE`
of `notifications.py` lines 70-78 over the `UNIQUE` endpoint column of
`app.py` lines 60-66). -/
theorem C7_upsert_idempotent (env : Env)
    (subs0 calls : List Subscription) (e : String) (clast : Subscription)
    (hst : env.storeOk = true)
    (hall : ∀ c ∈ calls, c.endpoint = e)
    (hlast : calls.getLast? = some clast) :
    (upsert_seq env subs0 calls).filter
      (fun t => t.endpoint == e) = [clast] ∧
    ∀ (st : List Subscription) (c : Subscription),
      (add_subscription env st c).1 = true := by
  refine ⟨upsert_seq_filter_last env hst e calls subs0 clast hall hlast, ?_⟩
  intro st c
  unfold add_subscription
  rw [hst]
  simp

/-- Witness for C5: with delivery to `sub_a` reporting 410 and delivery to
`sub_b` succeeding, the endpoint of `sub_a` is gone from the store after
the send. -/
theorem C5_witness :
    (envGoneA.webpushAvailable = true ∧ envGoneA.storeOk = true ∧
      sub_a ∈ [sub_a, sub_b] ∧
      envGoneA.deliver sub_a = DeliveryOutcome.webPushErr (some 410)) ∧
    (sub_a.endpoint ∉
      (get_all_subscriptions envGoneA
        (send_notification envGoneA [sub_a, sub_b]).subs).map
          (fun t => t.endpoint) ∧
     (send_notification envGoneA [sub_a, sub_b]).subs =
       [sub_a, sub_b].filter
         (fun t =>
           !((send_loop envGoneA.deliver [sub_a, sub_b]).2.contains
             t.endpoint))) :=
  ⟨⟨rfl, rfl, by decide, by decide⟩,
   C5_terminal_failure_pruned envGoneA [sub_a, sub_b] sub_a 410 rfl rfl
     (by decide) (by decide) (Or.inl rfl)⟩

/-- Witness for C6: with delivery to `sub_a` reporting a transient failure
and delivery to `sub_b` succeeding, `sub_a` stays in the store and each
endpoint is attempted once. -/
theorem C6_witness :
    (envTransientA.webpushAvailable = true ∧
      envTransientA.storeOk = true ∧ sub_a ∈ [sub_a, sub_b] ∧
      terminalFailure (envTransientA.deliver sub_a) = false) ∧
    (sub_a ∈ (send_notification envTransientA [sub_a, sub_b]).subs ∧
     sub_a.endpoint ∈
       (get_all_subscriptions envTransientA
         (send_notification envTransientA [sub_a, sub_b]).subs).map
           (fun t => t.endpoint) ∧
     (send_notification envTransientA [sub_a, sub_b]).attempted =
       [sub_a, sub_b].map (fun t => t.endpoint) ∧
     (send_notification envTransientA
       [sub_a, sub_b]).attempted.count sub_a.endpoint = 1) :=
  ⟨⟨rfl, rfl, by decide, by decide⟩,
   C6_transient_failure_kept envTransientA [sub_a, sub_b] sub_a rfl rfl
     (by decide) (by decide) (by decide) (by decide)⟩

/-- Witness for C7: upserting `sub_a` then `sub_a2` (same endpoint, fresh
keys) leaves exactly the row with the latest keys, and a repeat upsert
reports success. -/
theorem C7_witness :
    (env_0901.storeOk = true ∧
      [sub_a, sub_a2].getLast? = some sub_a2) ∧
    ((upsert_seq env_0901 [] [sub_a, sub_a2]).filter
      (fun t => t.endpoint == "https://push.example/a") = [sub_a2] ∧
     (add_subscription env_0901 [sub_a] sub_a2).1 = true) :=
  ⟨⟨rfl, by decide⟩,
   ⟨(C7_upsert_idempotent env_0901 [] [sub_a, sub_a2]
       "https://push.example/a" sub_a2 rfl (by decide) (by decide)).1,
    (C7_upsert_idempotent env_0901 [] [sub_a, sub_a2]
       "https://push.example/a" sub_a2 rfl (by decide) (by decide)).2
      [sub_a] sub_a2⟩⟩

end MedTracker
